import Mathlib

/-!
Shallow embedding of the provenance core of `src/provenance.py`
(class `Provenance`): the entity store (seven tables, dedup by
`get_or_create`), the definition registry with process-wide defaults,
the provenance recorder (`make_provenance`) and the recursive lineage
resolver (`get_provenance`) with its four format renderers.

Tables are lists of rows; a foreign key is the index (`Nat`) of the
referenced row (peewee's integer `id`, zero-based here).  Nullable
character fields are `Option String` (`none` = SQL NULL / Python
`None`).  `get_or_create` returns the first row equal on all supplied
fields, else appends a new row, exactly as the peewee calls in the
source match on every field they pass.
-/

/-- Row of table `DataOwner` (`name`, `role`, `type`, `department`). -/
structure DataOwner where
  name : Option String
  role : Option String
  type : Option String
  department : Option String
deriving DecidableEq, Repr, Inhabited

/-- Row of table `DataSteward` (`name`, `role`, `type`, `department`). -/
structure DataSteward where
  name : Option String
  role : Option String
  type : Option String
  department : Option String
deriving DecidableEq, Repr, Inhabited

/-- Row of table `DataGovernance` (`name`, `version`, `status`). -/
structure DataGovernance where
  name : Option String
  version : Option String
  status : Option String
deriving DecidableEq, Repr, Inhabited

/-- Row of table `DataStore` (`name`).  `add_definition` always receives
`source` and `destination` names, so `name` is a plain `String`. -/
structure DataStore where
  name : String
deriving DecidableEq, Repr, Inhabited

/-- Row of table `Script` (`name`, `version`, `creator`). -/
structure Script where
  name : Option String
  version : Option String
  creator : Option String
deriving DecidableEq, Repr, Inhabited

/-- Row of table `DataElement`.  `source`/`destination` reference
`DataStore` rows; `script`/`owner`/`governance`/`steward` are the
nullable references left `none` when no field of the group was set. -/
structure DataElement where
  name : String
  description : Option String
  source : Nat
  source_variable : Option String
  destination : Nat
  destination_variable : Option String
  description_of_transformation : Option String
  description_of_qualitycheck : Option String
  script : Option Nat
  status_log : Option String
  owner : Option Nat
  governance : Option Nat
  steward : Option Nat
deriving DecidableEq, Repr, Inhabited

/-- Row of table `DataProvenance`: one recorded movement event of the
referenced `DataElement`. -/
structure DataProvenanceRow where
  dataelement : Nat
  sourcereference : String
  destinationreference : String
  quality : String
  timestamp : String
deriving DecidableEq, Repr, Inhabited

/-- The process-wide default reference values, one `self.__global_*`
slot per field (all `None` after `__init__`). -/
structure Defaults where
  script_name : Option String := none
  script_version : Option String := none
  script_creator : Option String := none
  sop_name : Option String := none
  sop_version : Option String := none
  sop_status : Option String := none
  owner_name : Option String := none
  owner_role : Option String := none
  owner_type : Option String := none
  owner_department : Option String := none
  steward_name : Option String := none
  steward_role : Option String := none
  steward_type : Option String := none
  steward_department : Option String := none
deriving DecidableEq, Repr, Inhabited

/-- Whole state of one `Provenance` instance: the seven tables, the
in-memory id registry (`self.__list_of_dataelements`, an
insertion-ordered map) and the current defaults. -/
structure PState where
  owners : List DataOwner := []
  stewards : List DataSteward := []
  governances : List DataGovernance := []
  stores : List DataStore := []
  scripts : List Script := []
  elements : List DataElement := []
  provenances : List DataProvenanceRow := []
  registry : List (String × Nat) := []
  defaults : Defaults := {}
deriving DecidableEq, Repr, Inhabited

/-- State right after `Provenance.__init__`: empty tables, empty
registry, every global default `None`. -/
def init_state : PState := {}

/-- Model of peewee's `Model.get_or_create` matching on every supplied
field: return the index of the first row equal to `x`, else append `x`
and return its index. -/
def getOrCreate {α : Type} [DecidableEq α] : List α → α → Nat × List α
  | [], x => (0, [x])
  | y :: ys, x =>
    if x = y then (0, y :: ys)
    else ((getOrCreate ys x).1 + 1, y :: (getOrCreate ys x).2)

theorem getOrCreate_get {α : Type} [DecidableEq α] (l : List α) (x : α) :
    (getOrCreate l x).2.get? (getOrCreate l x).1 = some x := by
  induction l with
  | nil => rfl
  | cons y ys ih =>
    by_cases h : x = y
    · simp [getOrCreate, h]
    · simpa [getOrCreate, h] using ih

theorem getOrCreate_idem {α : Type} [DecidableEq α] (l : List α) (x : α) :
    getOrCreate (getOrCreate l x).2 x = getOrCreate l x := by
  induction l with
  | nil => simp [getOrCreate]
  | cons y ys ih =>
    by_cases h : x = y
    · simp [getOrCreate, h]
    · simp [getOrCreate, h, ih]

theorem getOrCreate_snd_append {α : Type} [DecidableEq α] (l : List α) (x : α) :
    ∃ t, (getOrCreate l x).2 = l ++ t := by
  induction l with
  | nil => exact ⟨[x], rfl⟩
  | cons y ys ih =>
    by_cases h : x = y
    · exact ⟨[], by simp [getOrCreate, h]⟩
    · obtain ⟨t, ht⟩ := ih
      exact ⟨t, by simp [getOrCreate, h, ht]⟩

theorem getOrCreate_mem {α : Type} [DecidableEq α] (l : List α) (x : α) :
    x ∈ (getOrCreate l x).2 := by
  induction l with
  | nil => simp [getOrCreate]
  | cons y ys ih =>
    by_cases h : x = y
    · simp [getOrCreate, h]
    · simp [getOrCreate, h]
      exact ih

theorem getOrCreate_append_of_mem {α : Type} [DecidableEq α]
    (l t : List α) (x : α) (h : x ∈ l) :
    getOrCreate (l ++ t) x = ((getOrCreate l x).1, l ++ t) := by
  induction l with
  | nil => cases h
  | cons y ys ih =>
    by_cases hxy : x = y
    · simp [getOrCreate, hxy]
    · have hm : x ∈ ys := by
        cases h with
        | head => exact absurd rfl hxy
        | tail _ h' => exact h'
      simp [getOrCreate, hxy, ih hm]

theorem getOrCreate_length_nil {α : Type} [DecidableEq α] (x : α) :
    (getOrCreate ([] : List α) x).2.length = 1 := rfl

/-- Python dict binding `self.__list_of_dataelements[id] = dataelement`:
replace the value of an existing key in place, else append. -/
def bindReg : List (String × Nat) → String → Nat → List (String × Nat)
  | [], k, v => [(k, v)]
  | (k', v') :: r, k, v =>
    if k' = k then (k, v) :: r else (k', v') :: bindReg r k v

/-- Python dict lookup `self.__list_of_dataelements[name]`
(`none` = `KeyError`). -/
def lookupReg : List (String × Nat) → String → Option Nat
  | [], _ => none
  | (k', v') :: r, k => if k' = k then some v' else lookupReg r k

theorem lookupReg_bindReg (r : List (String × Nat)) (k k' : String) (v : Nat) :
    lookupReg (bindReg r k v) k' =
      if k = k' then some v else lookupReg r k' := by
  induction r with
  | nil => simp [bindReg, lookupReg]
  | cons p r ih =>
    obtain ⟨pk, pv⟩ := p
    by_cases h1 : pk = k
    · subst h1
      by_cases h2 : pk = k' <;> simp [bindReg, lookupReg, h2]
    · by_cases h2 : pk = k'
      · subst h2
        have hk : ¬k = pk := fun he => h1 he.symm
        simp [bindReg, lookupReg, h1, hk]
      · simp [bindReg, lookupReg, h1, h2, ih]

theorem bindReg_idem (r : List (String × Nat)) (k : String) (v : Nat) :
    bindReg (bindReg r k v) k v = bindReg r k v := by
  induction r with
  | nil => simp [bindReg]
  | cons p r ih =>
    obtain ⟨pk, pv⟩ := p
    by_cases h : pk = k
    · simp [bindReg, h]
    · simp [bindReg, h, ih]

/-- Python truthiness of a string-or-None value: `None` and `""` are
falsy, every other string truthy. -/
def pytruthy : Option String → Bool
  | none => false
  | some s => !(s == "")

/-- The per-field override resolution of `add_definition`
(`x if x else self.__global_...`): the explicit argument when truthy,
else the current default. -/
def combine (x d : Option String) : Option String :=
  if pytruthy x then x else d

/-- Creation of one optional reference group in `add_definition`: the
group row is created (`get_or_create`) only when at least one combined
field is truthy, else the reference stays `None` and the table is
untouched. -/
def resolve_ref {α : Type} [DecidableEq α] (table : List α) (row : α)
    (anyTruthy : Bool) : Option Nat × List α :=
  if anyTruthy then
    let r := getOrCreate table row
    (some r.1, r.2)
  else (none, table)

theorem resolve_ref_idem {α : Type} [DecidableEq α] (table : List α)
    (row : α) (b : Bool) :
    resolve_ref (resolve_ref table row b).2 row b =
      resolve_ref table row b := by
  cases b with
  | false => simp [resolve_ref]
  | true => simp [resolve_ref, getOrCreate_idem]

/-- Keyword arguments of `Provenance.add_definition`; `id`, `name`,
`source`, `destination` are required, every other parameter defaults to
`None`. -/
structure AddArgs where
  id : String
  name : String
  description : Option String := none
  source : String
  source_variable : Option String := none
  destination : String
  destination_variable : Option String := none
  description_of_transformation : Option String := none
  description_of_qualitycheck : Option String := none
  script_name : Option String := none
  script_version : Option String := none
  script_creator : Option String := none
  status_log : Option String := none
  owner_name : Option String := none
  owner_role : Option String := none
  owner_type : Option String := none
  owner_department : Option String := none
  steward_name : Option String := none
  steward_role : Option String := none
  steward_type : Option String := none
  steward_department : Option String := none
  sop_name : Option String := none
  sop_version : Option String := none
  sop_status : Option String := none
deriving DecidableEq, Repr

/-- `Provenance.add_script_definition`: unconditionally replace the
script default set (omitted parameters are `None`, so this is a full
replace, never a merge). -/
def add_script_definition (s : PState) (script_name script_version
    script_creator : Option String) : PState :=
  { s with defaults := { s.defaults with
      script_name := script_name, script_version := script_version,
      script_creator := script_creator } }

/-- `Provenance.add_governance_definition`: replace the SOP default set. -/
def add_governance_definition (s : PState) (sop_name sop_version
    sop_status : Option String) : PState :=
  { s with defaults := { s.defaults with
      sop_name := sop_name, sop_version := sop_version,
      sop_status := sop_status } }

/-- `Provenance.add_owner_definition`: replace the owner default set. -/
def add_owner_definition (s : PState) (owner_name owner_role owner_type
    owner_department : Option String) : PState :=
  { s with defaults := { s.defaults with
      owner_name := owner_name, owner_role := owner_role,
      owner_type := owner_type, owner_department := owner_department } }

/-- `Provenance.add_steward_definition`: replace the steward default set. -/
def add_steward_definition (s : PState) (steward_name steward_role
    steward_type steward_department : Option String) : PState :=
  { s with defaults := { s.defaults with
      steward_name := steward_name, steward_role := steward_role,
      steward_type := steward_type,
      steward_department := steward_department } }

/-- The owner row `add_definition` would create from arguments `a` under
defaults `d` (fields already resolved by `combine`). -/
def ownerRowOf (d : Defaults) (a : AddArgs) : DataOwner :=
  ⟨combine a.owner_name d.owner_name, combine a.owner_role d.owner_role,
   combine a.owner_type d.owner_type,
   combine a.owner_department d.owner_department⟩

/-- The steward row `add_definition` would create. -/
def stewardRowOf (d : Defaults) (a : AddArgs) : DataSteward :=
  ⟨combine a.steward_name d.steward_name,
   combine a.steward_role d.steward_role,
   combine a.steward_type d.steward_type,
   combine a.steward_department d.steward_department⟩

/-- The governance row `add_definition` would create. -/
def governanceRowOf (d : Defaults) (a : AddArgs) : DataGovernance :=
  ⟨combine a.sop_name d.sop_name, combine a.sop_version d.sop_version,
   combine a.sop_status d.sop_status⟩

/-- The script row `add_definition` would create. -/
def scriptRowOf (d : Defaults) (a : AddArgs) : Script :=
  ⟨combine a.script_name d.script_name,
   combine a.script_version d.script_version,
   combine a.script_creator d.script_creator⟩

/-- Truthiness of a `DataOwner` row: the `if combined_owner_name or ...`
guard deciding whether the group is created at all. -/
def ownerTruthy (o : DataOwner) : Bool :=
  pytruthy o.name || pytruthy o.role || pytruthy o.type ||
    pytruthy o.department

/-- Guard for the steward group. -/
def stewardTruthy (o : DataSteward) : Bool :=
  pytruthy o.name || pytruthy o.role || pytruthy o.type ||
    pytruthy o.department

/-- Guard for the governance group. -/
def governanceTruthy (g : DataGovernance) : Bool :=
  pytruthy g.name || pytruthy g.version || pytruthy g.status

/-- Guard for the script group. -/
def scriptTruthy (c : Script) : Bool :=
  pytruthy c.name || pytruthy c.version || pytruthy c.creator

/-- Owner-group step of `add_definition` on state `s`: the optional new
reference and the updated `DataOwner` table. -/
def ownerResOf (s : PState) (a : AddArgs) : Option Nat × List DataOwner :=
  resolve_ref s.owners (ownerRowOf s.defaults a)
    (ownerTruthy (ownerRowOf s.defaults a))

/-- Steward-group step of `add_definition`. -/
def stewardResOf (s : PState) (a : AddArgs) :
    Option Nat × List DataSteward :=
  resolve_ref s.stewards (stewardRowOf s.defaults a)
    (stewardTruthy (stewardRowOf s.defaults a))

/-- Governance-group step of `add_definition`. -/
def govResOf (s : PState) (a : AddArgs) :
    Option Nat × List DataGovernance :=
  resolve_ref s.governances (governanceRowOf s.defaults a)
    (governanceTruthy (governanceRowOf s.defaults a))

/-- Script-group step of `add_definition`. -/
def scriptResOf (s : PState) (a : AddArgs) : Option Nat × List Script :=
  resolve_ref s.scripts (scriptRowOf s.defaults a)
    (scriptTruthy (scriptRowOf s.defaults a))

/-- `get_or_create` of the source store in `add_definition`. -/
def srcResOf (s : PState) (a : AddArgs) : Nat × List DataStore :=
  getOrCreate s.stores ⟨a.source⟩

/-- `get_or_create` of the destination store (runs on the table already
updated by the source-store step). -/
def dstResOf (s : PState) (a : AddArgs) : Nat × List DataStore :=
  getOrCreate (srcResOf s a).2 ⟨a.destination⟩

/-- The `DataElement` row `add_definition` passes to `get_or_create`:
the full attribute tuple with resolved references. -/
def elemRowOf (s : PState) (a : AddArgs) : DataElement :=
  ⟨a.name, a.description, (srcResOf s a).1, a.source_variable,
   (dstResOf s a).1, a.destination_variable,
   a.description_of_transformation, a.description_of_qualitycheck,
   (scriptResOf s a).1, a.status_log, (ownerResOf s a).1,
   (govResOf s a).1, (stewardResOf s a).1⟩

/-- `get_or_create` of the `DataElement` row in `add_definition`. -/
def elemResOf (s : PState) (a : AddArgs) : Nat × List DataElement :=
  getOrCreate s.elements (elemRowOf s a)

/-- `Provenance.add_definition`: resolve each of the four reference
groups against the defaults (`combine`), create each group row only when
some combined field is truthy, `get_or_create` the two stores and the
`DataElement` row, and bind `id` to the element in the registry
(last-writer-wins). -/
def add_definition (s : PState) (a : AddArgs) : PState :=
  { owners := (ownerResOf s a).2, stewards := (stewardResOf s a).2,
    governances := (govResOf s a).2, stores := (dstResOf s a).2,
    scripts := (scriptResOf s a).2, elements := (elemResOf s a).2,
    provenances := s.provenances,
    registry := bindReg s.registry a.id (elemResOf s a).1,
    defaults := s.defaults }

/-- Keyword arguments of `Provenance.make_provenance` (all required;
`name` is the registry id of the data element). -/
structure ProvArgs where
  name : String
  sourcereference : String
  destinationreference : String
  quality : String
  timestamp : String
deriving DecidableEq, Repr

/-- `Provenance.make_provenance`: look the id up in the registry — a
missing id raises `KeyError` before anything is written, modelled as
`none` — then `get_or_create` the event row with the full tuple. -/
def make_provenance (s : PState) (a : ProvArgs) : Option PState :=
  match lookupReg s.registry a.name with
  | none => none
  | some ei =>
    let row : DataProvenanceRow :=
      ⟨ei, a.sourcereference, a.destinationreference, a.quality,
       a.timestamp⟩
    some { s with provenances := (getOrCreate s.provenances row).2 }

/-- Python `str()` as applied by f-string interpolation to a
string-or-None value (`None` prints as `"None"`). -/
def pyStr : Option String → String
  | none => "None"
  | some s => s

/-- `Provenance._format_provenance_logtext`: one space-separated
human-readable sentence per event, ending in a newline. -/
def format_provenance_logtext (source_name source_variable
    source_reference script_name script_version destination_name
    destination_variable destination_reference steward_name
    steward_role : String) : String :=
  source_name ++ " " ++ source_variable ++ " " ++ source_reference ++
    " was converted by " ++ script_name ++ " " ++ script_version ++
    " to " ++ destination_name ++ " " ++ destination_variable ++ " " ++
    destination_reference ++ " by " ++ steward_name ++ " " ++
    steward_role ++ "\n"

/-- `Provenance._format_provenance_mermaid_flow`: one labelled directed
edge in mermaid flowchart notation per event. -/
def format_provenance_mermaid_flow (source_name source_variable
    source_reference script_name script_version destination_name
    destination_variable destination_reference steward_name
    steward_role : String) : String :=
  "    " ++ source_name ++ "." ++ source_variable ++ "." ++
    source_reference ++ "--> |" ++ script_name ++ ". " ++
    script_version ++ "  " ++ steward_name ++ "." ++ steward_role ++
    "| " ++ destination_name ++ "." ++ destination_variable ++ "." ++
    destination_reference ++ "\n"

/-- `Provenance._format_provenance_mermaid_w3cprov`: four mermaid edges
per event for the used / was-generated-by / was-associated-with /
was-derived-from W3C-PROV relations. -/
def format_provenance_mermaid_w3cprov (source_name source_variable
    source_reference script_name script_version destination_name
    destination_variable destination_reference steward_name
    steward_role : String) : String :=
  "    A[\x27" ++ script_name ++ "\x27\x27" ++ script_version ++
    "\x27] -->|used| B([\x27" ++ source_name ++ "\x27\x27" ++
    source_variable ++ "\x27\x27" ++ source_reference ++ "\x27])\n" ++
  "    C([\x27" ++ destination_name ++ "\x27\x27" ++
    destination_variable ++ "\x27\x27" ++ destination_reference ++
    "\x27]) -->|was generated by| A[\x27" ++ script_name ++
    "\x27\x27" ++ script_version ++ "\x27]\n" ++
  "    A[\x27" ++ script_name ++ "\x27\x27" ++ script_version ++
    "\x27] -.->|was associated with| D[/\x27" ++ steward_name ++
    "\x27" ++ steward_role ++ "\\] \n" ++
  "    C([\x27" ++ destination_name ++ "\x27\x27" ++
    destination_variable ++ "\x27\x27" ++ destination_reference ++
    "\x27])  -->|was derived from| B([\x27" ++ source_name ++
    "\x27\x27" ++ source_variable ++ "\x27\x27" ++ source_reference ++
    "\x27])\n"

/-- JSON rendering of a string value. -/
def jstr (s : String) : String := "\"" ++ s ++ "\""

/-- JSON rendering of a string-or-null value. -/
def jopt : Option String → String
  | none => "null"
  | some s => jstr s

/-- `Provenance._format_provenance_fhir`: serialize the `OrderedDict`
built in the source with `json.dump(..., indent=4)`.  Re-assigned keys
(`entity` twice, `agent` three times) keep their position with the last
value.  `occuredDateTime`/`recorded` hold the literal text
`"timestamp"`; the `timestamp`, `owner_type`, `owner_role` and the
source/destination parameters do not appear in the output.  `sop_name`
receives `dp.dataelement.governance`; when that is a row (not NULL),
`json.dump` raises `TypeError` on the unserializable model instance,
modelled as `none`. -/
def format_provenance_fhir (source_name source_variable
    source_reference script_name script_version destination_name
    destination_variable destination_reference : String)
    (sop_name : Option DataGovernance) (timestamp : String)
    (steward_name steward_role : String)
    (description_of_transformation : Option String)
    (owner_type owner_role : Option String) : Option String :=
  match sop_name with
  | some _ => none
  | none => some (
    "\x7b\n" ++
    "    \"resourceType\": \"Provenance\",\n" ++
    "    \"occuredDateTime\": \"timestamp\",\n" ++
    "    \"recorded\": \"timestamp\",\n" ++
    "    \"policy\": null,\n" ++
    "    \"location\": \x7b\n" ++
    "        \"reference\": " ++ jstr steward_name ++ "\n" ++
    "    \x7d,\n" ++
    "    \"authorization\": \x7b\n" ++
    "        \"coding\": [\n" ++
    "            \x7b\n" ++
    "                \"system\": \"http://terminology.hl7.org/CodeSystem/v3-ActReason\",\n" ++
    "                \"code\": \"TRANSRCH\",\n" ++
    "                \"display\": \"My own code\"\n" ++
    "            \x7d\n" ++
    "        ]\n" ++
    "    \x7d,\n" ++
    "    \"activity\": \x7b\n" ++
    "        \"coding\": [\n" ++
    "            \x7b\n" ++
    "                \"system\": \"http://terminology.hl7.org/CodeSystem/iso-21089-lifecycle\",\n" ++
    "                \"code\": " ++ jopt description_of_transformation ++ ",\n" ++
    "                \"display\": \"Transform\"\n" ++
    "            \x7d\n" ++
    "        ]\n" ++
    "    \x7d,\n" ++
    "    \"basedOn\": \"ServiceRequest\",\n" ++
    "    \"target\": [\n" ++
    "        \x7b\n" ++
    "            \"reference\": \"Observation/omh-fhir-example\"\n" ++
    "        \x7d\n" ++
    "    ],\n" ++
    "    \"entity\": \x7b\n" ++
    "        \"what\": \x7b\n" ++
    "            \"identifier\": [\n" ++
    "                \x7b\n" ++
    "                    \"system\": \"urn:ietf:rfc:3986\",\n" ++
    "                    \"value\": \"243c773b-8936-407e-9c23-270d0ea49cc4\",\n" ++
    "                    \"display\": \"\"\n" ++
    "                \x7d\n" ++
    "            ]\n" ++
    "        \x7d\n" ++
    "    \x7d,\n" ++
    "    \"agent\": \x7b\n" ++
    "        \"who\": \x7b\n" ++
    "            \"identifier\": " ++ jstr steward_name ++ ",\n" ++
    "            \"display\": \"mysteward name\"\n" ++
    "        \x7d\n" ++
    "    \x7d\n" ++
    "\x7d")

/-- The `DataElement` row joined to an event (`dp.dataelement`). -/
def elemOf (s : PState) (dp : DataProvenanceRow) : DataElement :=
  (s.elements.get? dp.dataelement).getD default

/-- Name of the joined source store (`dp.dataelement.source.name`). -/
def src_store_name (s : PState) (dp : DataProvenanceRow) : String :=
  ((s.stores.get? (elemOf s dp).source).getD default).name

/-- Name of the joined destination store
(`dp.dataelement.destination.name`). -/
def dst_store_name (s : PState) (dp : DataProvenanceRow) : String :=
  ((s.stores.get? (elemOf s dp).destination).getD default).name

/-- The joined `Script` row of an event's element, if any. -/
def scriptOf (s : PState) (dp : DataProvenanceRow) : Option Script :=
  (elemOf s dp).script.bind s.scripts.get?

/-- The joined `DataSteward` row of an event's element, if any. -/
def stewardOf (s : PState) (dp : DataProvenanceRow) : Option DataSteward :=
  (elemOf s dp).steward.bind s.stewards.get?

/-- The joined `DataOwner` row of an event's element, if any. -/
def ownerOf (s : PState) (dp : DataProvenanceRow) : Option DataOwner :=
  (elemOf s dp).owner.bind s.owners.get?

/-- The joined `DataGovernance` row of an event's element, if any. -/
def governanceOf (s : PState) (dp : DataProvenanceRow) :
    Option DataGovernance :=
  (elemOf s dp).governance.bind s.governances.get?

/-- The `select ... join ... where` of `get_provenance`, per event: the
event's element exists, all five inner joins (destination store, source
store, `Script`, `DataSteward`, `DataOwner`) find a row, and the
destination coordinates equal the query triple (`destinationreference`,
destination store name, `destination_variable`). -/
def matches_query (s : PState) (dp : DataProvenanceRow)
    (datastore : String) (varName : Option String)
    (reference : String) : Bool :=
  match s.elements.get? dp.dataelement with
  | none => false
  | some e =>
    (match s.stores.get? e.destination with
     | none => false
     | some d => d.name == datastore) &&
    (s.stores.get? e.source).isSome &&
    (e.script.bind s.scripts.get?).isSome &&
    (e.steward.bind s.stewards.get?).isSome &&
    (e.owner.bind s.owners.get?).isSome &&
    (dp.destinationreference == reference) &&
    (e.destination_variable == varName)

/-- Outcome of one `get_provenance` call: a returned string, a raised
exception, or no outcome in the given recursion budget (the Python code
recurses without bound). -/
inductive RunResult where
  | diverge : RunResult
  | raise : RunResult
  | ret : String → RunResult
deriving DecidableEq, Repr, Inhabited

/-- Render one matched event in the chosen format — the four-way
`if format == ...` dispatch inside the loop of `get_provenance`.  An
unrecognized format selects no branch and contributes nothing.  `none`
models the `TypeError` raised inside the `fhir` branch. -/
def render_provenance (s : PState) (dp : DataProvenanceRow)
    (format : String) : Option String :=
  let e := elemOf s dp
  let sc := (scriptOf s dp).getD default
  let st := (stewardOf s dp).getD default
  let ow := (ownerOf s dp).getD default
  if format == "logtext" then
    some (format_provenance_logtext (src_store_name s dp)
      (pyStr e.source_variable) dp.sourcereference (pyStr sc.name)
      (pyStr sc.version) (dst_store_name s dp)
      (pyStr e.destination_variable) dp.destinationreference
      (pyStr st.name) (pyStr st.role))
  else if format == "mermaid_flow" then
    some (format_provenance_mermaid_flow (src_store_name s dp)
      (pyStr e.source_variable) dp.sourcereference (pyStr sc.name)
      (pyStr sc.version) (dst_store_name s dp)
      (pyStr e.destination_variable) dp.destinationreference
      (pyStr st.name) (pyStr st.role))
  else if format == "mermaid_w3cprov" then
    some (format_provenance_mermaid_w3cprov (src_store_name s dp)
      (pyStr e.source_variable) dp.sourcereference (pyStr sc.name)
      (pyStr sc.version) (dst_store_name s dp)
      (pyStr e.destination_variable) dp.destinationreference
      (pyStr st.name) (pyStr st.role))
  else if format == "fhir" then
    format_provenance_fhir (src_store_name s dp)
      (pyStr e.source_variable) dp.sourcereference (pyStr sc.name)
      (pyStr sc.version) (dst_store_name s dp)
      (pyStr e.destination_variable) dp.destinationreference
      (governanceOf s dp) dp.timestamp (pyStr st.name) (pyStr st.role)
      e.description_of_transformation ow.type ow.role
  else
    some ""

/-- Loop body of `get_provenance`: extend the accumulated text `acc`
with the rendered chunk of one matched event followed by the recursive
resolution `rec` of the event's source coordinates; an earlier
exception or exhausted budget propagates unchanged, a rendering
exception (`none` chunk) raises, and a diverging recursion diverges. -/
def prov_step (chunk? : Option String) (rec : RunResult)
    (acc : RunResult) : RunResult :=
  match acc with
  | RunResult.ret t =>
    match chunk? with
    | none => RunResult.raise
    | some chunk =>
      match rec with
      | RunResult.diverge => RunResult.diverge
      | RunResult.raise => RunResult.raise
      | RunResult.ret r => RunResult.ret (t ++ chunk ++ r)
  | other => other

/-- `Provenance.get_provenance` with an explicit recursion budget:
query the events matching the destination triple; zero matches return
`""` before any header is added; otherwise emit the mermaid header at
the outermost call only, then for each match append its rendered chunk
followed by the recursive resolution of the event's source coordinates
(`source.name`, `source_variable`, `sourcereference`).  Budget
exhaustion is `.diverge`; the Python original has no budget and simply
never returns on such inputs. -/
def get_provenance (s : PState) : Nat → String → Option String →
    String → String → Bool → RunResult
  | 0, _, _, _, _, _ => RunResult.diverge
  | fuel + 1, datastore, varName, reference, format, top =>
    let dps := s.provenances.filter
      (fun dp => matches_query s dp datastore varName reference)
    if dps.length = 0 then RunResult.ret ""
    else
      let header :=
        if (format == "mermaid_flow" || format == "mermaid_w3cprov")
            && top then "graph TD\n" else ""
      dps.foldl (fun acc dp =>
        prov_step (render_provenance s dp format)
          (get_provenance s fuel (src_store_name s dp)
            (elemOf s dp).source_variable dp.sourcereference format
            false) acc) (RunResult.ret header)

/-- Invariant preservation along a `List.foldl`. -/
theorem foldl_inv {α β : Type} (P : α → Prop) (f : α → β → α)
    (l : List β) (init : α) (h0 : P init)
    (hstep : ∀ acc b, b ∈ l → P acc → P (f acc b)) :
    P (l.foldl f init) := by
  induction l generalizing init with
  | nil => exact h0
  | cons x xs ih =>
    exact ih (f init x) (hstep init x (List.mem_cons_self x xs) h0)
      (fun acc b hb => hstep acc b (List.mem_cons_of_mem x hb))

/-- C8: defaults are captured at `add_definition` time — each of the
four default-setting operations rewrites only the default slots; every
table (in particular the `DataElement` rows) and the id registry are
left untouched, while the new defaults are installed for later
`add_definition` calls. -/
theorem default_setters_frame (s : PState)
    (a b c d : Option String) :
    ((add_script_definition s a b c).elements = s.elements ∧
     (add_script_definition s a b c).registry = s.registry ∧
     (add_script_definition s a b c).provenances = s.provenances ∧
     (add_script_definition s a b c).defaults.script_name = a) ∧
    ((add_governance_definition s a b c).elements = s.elements ∧
     (add_governance_definition s a b c).registry = s.registry ∧
     (add_governance_definition s a b c).provenances = s.provenances ∧
     (add_governance_definition s a b c).defaults.sop_name = a) ∧
    ((add_owner_definition s a b c d).elements = s.elements ∧
     (add_owner_definition s a b c d).registry = s.registry ∧
     (add_owner_definition s a b c d).provenances = s.provenances ∧
     (add_owner_definition s a b c d).defaults.owner_name = a) ∧
    ((add_steward_definition s a b c d).elements = s.elements ∧
     (add_steward_definition s a b c d).registry = s.registry ∧
     (add_steward_definition s a b c d).provenances = s.provenances ∧
     (add_steward_definition s a b c d).defaults.steward_name = a) :=
  ⟨⟨rfl, rfl, rfl, rfl⟩, ⟨rfl, rfl, rfl, rfl⟩, ⟨rfl, rfl, rfl, rfl⟩,
   ⟨rfl, rfl, rfl, rfl⟩⟩

/-- C4: `make_provenance` on an id never registered fails with the
`KeyError` lookup condition before any event row is written (no
successor state exists); on any registered id the lookup succeeds and
the call returns a state.  Registration via `add_definition` makes and
keeps the id resolvable. -/
theorem make_provenance_unknown_id :
    (∀ (s : PState) (a : ProvArgs),
        lookupReg s.registry a.name = none → make_provenance s a = none) ∧
    (∀ (s : PState) (a : ProvArgs),
        (lookupReg s.registry a.name).isSome →
          (make_provenance s a).isSome) ∧
    (∀ (s : PState) (a : AddArgs),
        (lookupReg (add_definition s a).registry a.id).isSome) ∧
    (∀ (s : PState) (a : AddArgs) (k : String),
        (lookupReg s.registry k).isSome →
          (lookupReg (add_definition s a).registry k).isSome) := by
  refine ⟨?_, ?_, ?_, ?_⟩
  · intro s a h
    simp [make_provenance, h]
  · intro s a h
    cases hl : lookupReg s.registry a.name with
    | none => rw [hl] at h; cases h
    | some ei => simp [make_provenance, hl]
  · intro s a
    have : (add_definition s a).registry =
        bindReg s.registry a.id (elemResOf s a).1 := rfl
    rw [this, lookupReg_bindReg]
    simp
  · intro s a k h
    have : (add_definition s a).registry =
        bindReg s.registry a.id (elemResOf s a).1 := rfl
    rw [this, lookupReg_bindReg]
    by_cases hk : a.id = k <;> simp [hk, h]

/-- Arguments used to exercise `make_provenance` on an id that was never
registered. -/
def w4_args : ProvArgs :=
  { name := "unknown", sourcereference := "1",
    destinationreference := "2", quality := "q", timestamp := "t" }

/-- Arguments used to register the id `"w"`. -/
def w4_add : AddArgs :=
  { id := "w", name := "n", source := "S", destination := "D" }

/-- Arguments recording an event for the registered id `"w"`. -/
def w4_rec : ProvArgs :=
  { name := "w", sourcereference := "1", destinationreference := "2",
    quality := "q", timestamp := "t" }

/-- Witness for C4 at concrete inputs: the unregistered id `"unknown"`
fails, the id `"w"` registered by `add_definition` succeeds. -/
theorem make_provenance_unknown_id_witness :
    lookupReg init_state.registry w4_args.name = none ∧
    make_provenance init_state w4_args = none ∧
    (lookupReg (add_definition init_state w4_add).registry
      w4_add.id).isSome ∧
    (make_provenance (add_definition init_state w4_add) w4_rec).isSome :=
  ⟨by decide, make_provenance_unknown_id.1 init_state w4_args (by decide),
   make_provenance_unknown_id.2.2.1 init_state w4_add,
   make_provenance_unknown_id.2.1 (add_definition init_state w4_add)
     w4_rec (by decide)⟩

/-- C5: when no stored event matches the destination triple,
`get_provenance` returns the empty string — before the mermaid header is
even considered, hence for every format and also at the outermost call —
and raises nothing; zero matches is the recursion base case, not an
error. -/
theorem get_provenance_no_match (s : PState) (fuel : Nat)
    (datastore : String) (varName : Option String)
    (reference format : String) (top : Bool)
    (h : ∀ dp ∈ s.provenances,
      matches_query s dp datastore varName reference = false) :
    get_provenance s (fuel + 1) datastore varName reference format top =
      RunResult.ret "" := by
  have hf : s.provenances.filter
      (fun dp => matches_query s dp datastore varName reference) = [] := by
    rw [List.filter_eq_nil_iff]
    intro dp hdp
    simp [h dp hdp]
  simp [get_provenance, hf]

/-- Witness for C5: the empty store matches nothing, for a diagram
format and at top level. -/
theorem get_provenance_no_match_witness :
    get_provenance init_state 1 "dwh" (some "v") "7" "mermaid_flow"
      true = RunResult.ret "" :=
  get_provenance_no_match init_state 0 "dwh" (some "v") "7"
    "mermaid_flow" true (by intro dp hdp; cases hdp)

theorem resolve_ref_spec {α : Type} [DecidableEq α] (table : List α)
    (row : α) (b : Bool) :
    if b then
      ∃ i, (resolve_ref table row b).1 = some i ∧
        (resolve_ref table row b).2.get? i = some row
    else (resolve_ref table row b).1 = none := by
  cases b with
  | false => simp [resolve_ref]
  | true =>
    simp only [if_true]
    exact ⟨(getOrCreate table row).1, by simp [resolve_ref],
      by simp only [resolve_ref, if_true]; exact getOrCreate_get _ _⟩

/-- C1 (amended): `add_definition` binds `id` to a `DataElement` row
carrying, for each of the four reference groups, the field set resolved
by `combine` — the explicitly supplied value when it is truthy
(non-`None`, non-empty), else the current default, else absent — and
creates the group row exactly when some resolved field is truthy,
leaving the reference `None` otherwise.  An explicitly supplied empty
string is falsy and therefore falls back to the default. -/
theorem add_definition_override_resolution (s : PState) (a : AddArgs) :
    lookupReg (add_definition s a).registry a.id =
      some (elemResOf s a).1 ∧
    (add_definition s a).elements.get? (elemResOf s a).1 =
      some (elemRowOf s a) ∧
    (if ownerTruthy (ownerRowOf s.defaults a) then
      ∃ i, (elemRowOf s a).owner = some i ∧
        (add_definition s a).owners.get? i =
          some (ownerRowOf s.defaults a)
    else (elemRowOf s a).owner = none) ∧
    (if stewardTruthy (stewardRowOf s.defaults a) then
      ∃ i, (elemRowOf s a).steward = some i ∧
        (add_definition s a).stewards.get? i =
          some (stewardRowOf s.defaults a)
    else (elemRowOf s a).steward = none) ∧
    (if governanceTruthy (governanceRowOf s.defaults a) then
      ∃ i, (elemRowOf s a).governance = some i ∧
        (add_definition s a).governances.get? i =
          some (governanceRowOf s.defaults a)
    else (elemRowOf s a).governance = none) ∧
    (if scriptTruthy (scriptRowOf s.defaults a) then
      ∃ i, (elemRowOf s a).script = some i ∧
        (add_definition s a).scripts.get? i =
          some (scriptRowOf s.defaults a)
    else (elemRowOf s a).script = none) := by
  refine ⟨?_, ?_, ?_, ?_, ?_, ?_⟩
  · show lookupReg (bindReg s.registry a.id (elemResOf s a).1) a.id = _
    rw [lookupReg_bindReg]
    simp
  · exact getOrCreate_get s.elements (elemRowOf s a)
  · exact resolve_ref_spec s.owners (ownerRowOf s.defaults a)
      (ownerTruthy (ownerRowOf s.defaults a))
  · exact resolve_ref_spec s.stewards (stewardRowOf s.defaults a)
      (stewardTruthy (stewardRowOf s.defaults a))
  · exact resolve_ref_spec s.governances (governanceRowOf s.defaults a)
      (governanceTruthy (governanceRowOf s.defaults a))
  · exact resolve_ref_spec s.scripts (scriptRowOf s.defaults a)
      (scriptTruthy (scriptRowOf s.defaults a))

/-- Arguments of the C1 counterexample call: an explicit empty-string
`owner_name` override. -/
def c1_args : AddArgs :=
  { id := "x", name := "n", source := "S", destination := "D",
    owner_name := some "" }

/-- State of the C1 counterexample: default owner name `"A"`, then
`add_definition` with explicit `owner_name=""`. -/
def c1_state : PState :=
  add_definition (add_owner_definition init_state (some "A") none none
    none) c1_args

/-- Counterexample to C1 as stated: with default owner name `"A"` and an
explicitly supplied `owner_name=""`, the stored owner row of the element
bound to `"x"` carries name `"A"` — the explicit empty string did not
win; it fell back to the default. -/
theorem add_definition_empty_override_counterexample :
    lookupReg c1_state.registry "x" = some 0 ∧
    c1_state.elements.get? 0 =
      some ⟨"n", none, 0, none, 1, none, none, none, none, none,
        some 0, none, none⟩ ∧
    c1_state.owners.get? 0 = some ⟨some "A", none, none, none⟩ ∧
    (some "A" : Option String) ≠ some "" := by decide

theorem ownerResOf_add (s : PState) (a : AddArgs) :
    ownerResOf (add_definition s a) a = ownerResOf s a := by
  have hd : (add_definition s a).defaults = s.defaults := rfl
  have ho : (add_definition s a).owners = (ownerResOf s a).2 := rfl
  unfold ownerResOf
  rw [hd, ho]
  exact resolve_ref_idem s.owners (ownerRowOf s.defaults a)
    (ownerTruthy (ownerRowOf s.defaults a))

theorem stewardResOf_add (s : PState) (a : AddArgs) :
    stewardResOf (add_definition s a) a = stewardResOf s a := by
  have hd : (add_definition s a).defaults = s.defaults := rfl
  have ho : (add_definition s a).stewards = (stewardResOf s a).2 := rfl
  unfold stewardResOf
  rw [hd, ho]
  exact resolve_ref_idem s.stewards (stewardRowOf s.defaults a)
    (stewardTruthy (stewardRowOf s.defaults a))

theorem govResOf_add (s : PState) (a : AddArgs) :
    govResOf (add_definition s a) a = govResOf s a := by
  have hd : (add_definition s a).defaults = s.defaults := rfl
  have ho : (add_definition s a).governances = (govResOf s a).2 := rfl
  unfold govResOf
  rw [hd, ho]
  exact resolve_ref_idem s.governances (governanceRowOf s.defaults a)
    (governanceTruthy (governanceRowOf s.defaults a))

theorem scriptResOf_add (s : PState) (a : AddArgs) :
    scriptResOf (add_definition s a) a = scriptResOf s a := by
  have hd : (add_definition s a).defaults = s.defaults := rfl
  have ho : (add_definition s a).scripts = (scriptResOf s a).2 := rfl
  unfold scriptResOf
  rw [hd, ho]
  exact resolve_ref_idem s.scripts (scriptRowOf s.defaults a)
    (scriptTruthy (scriptRowOf s.defaults a))

theorem srcResOf_add (s : PState) (a : AddArgs) :
    srcResOf (add_definition s a) a = ((srcResOf s a).1, (dstResOf s a).2) := by
  have hs : (add_definition s a).stores = (dstResOf s a).2 := rfl
  obtain ⟨t, ht⟩ := getOrCreate_snd_append (srcResOf s a).2
    (⟨a.destination⟩ : DataStore)
  have ht' : (dstResOf s a).2 = (srcResOf s a).2 ++ t := ht
  have hmem : (⟨a.source⟩ : DataStore) ∈ (srcResOf s a).2 :=
    getOrCreate_mem s.stores ⟨a.source⟩
  unfold srcResOf
  rw [hs, ht', getOrCreate_append_of_mem _ t _ hmem]
  have hid : getOrCreate (srcResOf s a).2 (⟨a.source⟩ : DataStore) =
      srcResOf s a := getOrCreate_idem s.stores ⟨a.source⟩
  rw [hid]
  rfl

theorem dstResOf_add (s : PState) (a : AddArgs) :
    dstResOf (add_definition s a) a = dstResOf s a := by
  unfold dstResOf
  rw [srcResOf_add]
  exact getOrCreate_idem (srcResOf s a).2 ⟨a.destination⟩

theorem elemRowOf_add (s : PState) (a : AddArgs) :
    elemRowOf (add_definition s a) a = elemRowOf s a := by
  unfold elemRowOf
  rw [ownerResOf_add, stewardResOf_add, govResOf_add, scriptResOf_add,
    srcResOf_add, dstResOf_add]

theorem elemResOf_add (s : PState) (a : AddArgs) :
    elemResOf (add_definition s a) a = elemResOf s a := by
  have he : (add_definition s a).elements = (elemResOf s a).2 := rfl
  unfold elemResOf
  rw [he, elemRowOf_add]
  exact getOrCreate_idem s.elements (elemRowOf s a)

/-- C3: the write path is idempotent.  Re-running `add_definition` with
identical arguments (defaults unchanged in between) is a complete
no-op — the second state equals the first, so the same `DataElement`
row stays bound to the id; from an empty element table one call leaves
exactly one row.  Re-running `make_provenance` with the identical event
tuple likewise changes nothing, and from an empty event table the pair
of calls leaves exactly one `DataProvenance` row. -/
theorem write_path_idempotent :
    (∀ (s : PState) (a : AddArgs),
        add_definition (add_definition s a) a = add_definition s a) ∧
    (∀ (s : PState) (a : AddArgs), s.elements = [] →
        (add_definition s a).elements.length = 1) ∧
    (∀ (s : PState) (a : ProvArgs) (s' : PState),
        make_provenance s a = some s' →
          make_provenance s' a = some s' ∧
          (s.provenances = [] → s'.provenances.length = 1)) := by
  refine ⟨?_, ?_, ?_⟩
  · intro s a
    show PState.mk (ownerResOf (add_definition s a) a).2
        (stewardResOf (add_definition s a) a).2
        (govResOf (add_definition s a) a).2
        (dstResOf (add_definition s a) a).2
        (scriptResOf (add_definition s a) a).2
        (elemResOf (add_definition s a) a).2
        (add_definition s a).provenances
        (bindReg (add_definition s a).registry a.id
          (elemResOf (add_definition s a) a).1)
        (add_definition s a).defaults = add_definition s a
    rw [ownerResOf_add, stewardResOf_add, govResOf_add, scriptResOf_add,
      dstResOf_add, elemResOf_add]
    show PState.mk _ _ _ _ _ _ s.provenances
      (bindReg (bindReg s.registry a.id (elemResOf s a).1) a.id
        (elemResOf s a).1) s.defaults = _
    rw [bindReg_idem]
    rfl
  · intro s a h
    show (elemResOf s a).2.length = 1
    unfold elemResOf
    rw [h]
    rfl
  · intro s a s' h
    cases hl : lookupReg s.registry a.name with
    | none => rw [make_provenance, hl] at h; cases h
    | some ei =>
      rw [make_provenance, hl] at h
      have hs' : s' = { s with provenances :=
          (getOrCreate s.provenances
            ⟨ei, a.sourcereference, a.destinationreference, a.quality,
             a.timestamp⟩).2 } := by
        cases h
        rfl
      constructor
      · have hl' : lookupReg s'.registry a.name = some ei := by
          rw [hs']
          exact hl
        rw [make_provenance, hl']
        rw [hs']
        simp only []
        rw [getOrCreate_idem]
      · intro hp
        rw [hs']
        simp only [hp]
        rfl

/-- Registration used by the C3 witness. -/
def w3_add : AddArgs :=
  { id := "w3", name := "n", source := "S", destination := "D" }

/-- Event tuple used by the C3 witness. -/
def w3_rec : ProvArgs :=
  { name := "w3", sourcereference := "1", destinationreference := "2",
    quality := "q", timestamp := "t" }

/-- State after the first `add_definition` of the C3 witness. -/
def w3_s1 : PState := add_definition init_state w3_add

/-- State after recording the C3 witness event once. -/
def w3_s2 : PState := (make_provenance w3_s1 w3_rec).getD w3_s1

/-- Witness for C3 at concrete inputs: both repeated calls are no-ops
and each table holds exactly one row. -/
theorem write_path_idempotent_witness :
    add_definition (add_definition init_state w3_add) w3_add =
      add_definition init_state w3_add ∧
    (add_definition init_state w3_add).elements.length = 1 ∧
    make_provenance w3_s1 w3_rec = some w3_s2 ∧
    make_provenance w3_s2 w3_rec = some w3_s2 ∧
    w3_s2.provenances.length = 1 :=
  ⟨write_path_idempotent.1 init_state w3_add,
   write_path_idempotent.2.1 init_state w3_add rfl,
   by decide,
   (write_path_idempotent.2.2 w3_s1 w3_rec w3_s2 (by decide)).1,
   (write_path_idempotent.2.2 w3_s1 w3_rec w3_s2 (by decide)).2
     (by decide)⟩

theorem get_provenance_succ (s : PState) (fuel : Nat)
    (datastore : String) (varName : Option String)
    (reference format : String) (top : Bool) :
    get_provenance s (fuel + 1) datastore varName reference format top =
      (if (s.provenances.filter
            (fun dp => matches_query s dp datastore varName reference)).length = 0
       then RunResult.ret ""
       else (s.provenances.filter
          (fun dp => matches_query s dp datastore varName reference)).foldl
          (fun acc dp =>
            prov_step (render_provenance s dp format)
              (get_provenance s fuel (src_store_name s dp)
                (elemOf s dp).source_variable dp.sourcereference format
                false) acc)
          (RunResult.ret
            (if (format == "mermaid_flow" || format == "mermaid_w3cprov")
                && top then "graph TD\n" else ""))) := rfl

/-- C9: the lineage query inner-joins `Script`, `DataSteward` and
`DataOwner`; an event whose element has any of those references unset
(`NULL`) never matches any query triple — even one equal to its own
destination coordinates — so `get_provenance` never selects or renders
it in any format. -/
theorem inner_join_drops_unset_refs (s : PState)
    (dp : DataProvenanceRow) (e : DataElement) (datastore : String)
    (varName : Option String) (reference : String)
    (he : s.elements.get? dp.dataelement = some e)
    (hnull : e.script = none ∨ e.steward = none ∨ e.owner = none) :
    matches_query s dp datastore varName reference = false ∧
    dp ∉ s.provenances.filter
      (fun dp' => matches_query s dp' datastore varName reference) := by
  have hm : matches_query s dp datastore varName reference = false := by
    unfold matches_query
    rw [he]
    rcases hnull with h | h | h <;> simp [h]
  refine ⟨hm, ?_⟩
  intro hmem
  have hq := (List.mem_filter.mp hmem).2
  rw [hm] at hq
  cases hq

/-- Element of the C9 witness: script reference left unset. -/
def w9_elem : DataElement :=
  ⟨"n", none, 0, none, 0, some "v", none, none, none, none, some 0,
   none, some 0⟩

/-- State of the C9 witness: one event whose element lacks a script
reference but whose destination coordinates are exactly
`("D", "v", "2")`. -/
def w9_state : PState :=
  { owners := [⟨some "o", none, none, none⟩],
    stewards := [⟨some "st", none, none, none⟩],
    stores := [⟨"D"⟩],
    elements := [w9_elem],
    provenances := [⟨0, "1", "2", "q", "t"⟩] }

/-- Witness for C9 at a concrete event whose destination coordinates
match the query exactly. -/
theorem inner_join_drops_unset_refs_witness :
    matches_query w9_state ⟨0, "1", "2", "q", "t"⟩ "D" (some "v") "2" =
      false ∧
    (⟨0, "1", "2", "q", "t"⟩ : DataProvenanceRow) ∉
      w9_state.provenances.filter
        (fun dp' => matches_query w9_state dp' "D" (some "v") "2") :=
  inner_join_drops_unset_refs w9_state ⟨0, "1", "2", "q", "t"⟩ w9_elem
    "D" (some "v") "2" (by decide) (Or.inl (by decide))

theorem render_provenance_unknown (s : PState) (dp : DataProvenanceRow)
    (format : String) (h1 : format ≠ "logtext")
    (h2 : format ≠ "mermaid_flow") (h3 : format ≠ "mermaid_w3cprov")
    (h4 : format ≠ "fhir") :
    render_provenance s dp format = some "" := by
  unfold render_provenance
  simp [h1, h2, h3, h4]

/-- C10: a format string outside
`{logtext, mermaid_flow, mermaid_w3cprov, fhir}` selects no renderer
branch and no header, so `get_provenance` raises nothing and — whenever
the recursion completes — returns the empty string for every
destination triple, indistinguishable from an empty lineage. -/
theorem get_provenance_unknown_format :
    ∀ (fuel : Nat) (s : PState) (datastore : String)
      (varName : Option String) (reference format : String) (top : Bool),
      format ≠ "logtext" → format ≠ "mermaid_flow" →
      format ≠ "mermaid_w3cprov" → format ≠ "fhir" →
      get_provenance s fuel datastore varName reference format top ≠
        RunResult.raise ∧
      (∀ r, get_provenance s fuel datastore varName reference format
        top = RunResult.ret r → r = "") := by
  intro fuel
  induction fuel with
  | zero =>
    intro s ds v r fmt top h1 h2 h3 h4
    exact ⟨by simp [get_provenance], by intro r' hr'; cases hr'⟩
  | succ n ih =>
    intro s ds v r fmt top h1 h2 h3 h4
    rw [get_provenance_succ]
    by_cases hz : (s.provenances.filter
        (fun dp => matches_query s dp ds v r)).length = 0
    · rw [if_pos hz]
      constructor
      · intro h
        cases h
      · intro r' hr'
        cases hr'
        rfl
    · rw [if_neg hz]
      have hh : (if (fmt == "mermaid_flow" || fmt == "mermaid_w3cprov")
          && top then "graph TD\n" else "") = "" := by
        simp [h2, h3]
      rw [hh]
      have key : (s.provenances.filter
            (fun dp => matches_query s dp ds v r)).foldl
          (fun acc dp =>
            prov_step (render_provenance s dp fmt)
              (get_provenance s n (src_store_name s dp)
                (elemOf s dp).source_variable dp.sourcereference fmt
                false) acc) (RunResult.ret "") = RunResult.ret "" ∨
          (s.provenances.filter
            (fun dp => matches_query s dp ds v r)).foldl
          (fun acc dp =>
            prov_step (render_provenance s dp fmt)
              (get_provenance s n (src_store_name s dp)
                (elemOf s dp).source_variable dp.sourcereference fmt
                false) acc) (RunResult.ret "") = RunResult.diverge := by
        refine foldl_inv
          (fun acc => acc = RunResult.ret "" ∨ acc = RunResult.diverge)
          _ _ _ (Or.inl rfl) ?_
        intro acc dp _ hP
        rcases hP with rfl | rfl
        · rw [render_provenance_unknown s dp fmt h1 h2 h3 h4]
          rcases hrec : get_provenance s n (src_store_name s dp)
              (elemOf s dp).source_variable dp.sourcereference fmt
              false with _ | _ | rr
          · exact Or.inr rfl
          · exact absurd hrec (ih s (src_store_name s dp)
              (elemOf s dp).source_variable dp.sourcereference fmt
              false h1 h2 h3 h4).1
          · have hrr : rr = "" := (ih s (src_store_name s dp)
              (elemOf s dp).source_variable dp.sourcereference fmt
              false h1 h2 h3 h4).2 rr hrec
            subst hrr
            exact Or.inl rfl
        · exact Or.inr rfl
      rcases key with hk | hk <;> rw [hk]
      · constructor
        · intro h
          cases h
        · intro r' hr'
          cases hr'
          rfl
      · constructor
        · intro h
          cases h
        · intro r' hr'
          cases hr'

/-- Witness for C10 with the unrecognized format `"xml"`. -/
theorem get_provenance_unknown_format_witness :
    get_provenance init_state 1 "dwh" (some "v") "7" "xml" true ≠
      RunResult.raise ∧
    (∀ r, get_provenance init_state 1 "dwh" (some "v") "7" "xml" true =
      RunResult.ret r → r = "") :=
  get_provenance_unknown_format 1 init_state "dwh" (some "v") "7" "xml"
    true (by decide) (by decide) (by decide) (by decide)

/-- A store with a single fully-joined event
`("S", sv, "1") → ("D", dv, "2")` whose rendered fields are the given
parameters. -/
def one_event_state (sv dv scn scv stn srole q t : String) : PState :=
  { owners := [⟨some "own", none, none, none⟩],
    stewards := [⟨some stn, some srole, none, none⟩],
    stores := [⟨"S"⟩, ⟨"D"⟩],
    scripts := [⟨some scn, some scv, none⟩],
    elements := [⟨"n", none, 0, some sv, 1, some dv, none, none, some 0,
      none, some 0, none, some 0⟩],
    provenances := [⟨0, "1", "2", q, t⟩] }

/-- C6 (amended): for a resolved event the logtext renderer produces
exactly one sentence per event of the space-separated form
`"<source> <source_variable> <source_ref> was converted by <script>
<version> to <destination> <destination_variable> <destination_ref> by
<steward> <role>\n"` — the triples are joined by single spaces (not
dots) and the sentence ends in a newline — and `get_provenance` in
`logtext` format returns exactly that sentence for a single-event
lineage. -/
theorem logtext_sentence_shape (sv dv scn scv stn srole q t : String) :
    get_provenance (one_event_state sv dv scn scv stn srole q t) 2 "D"
      (some dv) "2" "logtext" true =
      RunResult.ret
        (format_provenance_logtext "S" sv "1" scn scv "D" dv "2" stn
          srole) ∧
    (∀ a b c d e f g h i j : String,
      format_provenance_logtext a b c d e f g h i j =
        a ++ " " ++ b ++ " " ++ c ++ " was converted by " ++ d ++ " " ++
        e ++ " to " ++ f ++ " " ++ g ++ " " ++ h ++ " by " ++ i ++ " " ++
        j ++ "\n") := by
  constructor
  · have hfil : (one_event_state sv dv scn scv stn srole q t).provenances.filter
        (fun dp => matches_query (one_event_state sv dv scn scv stn srole q t)
          dp "D" (some dv) "2") = [⟨0, "1", "2", q, t⟩] := by
      simp [one_event_state, matches_query, List.filter]
    have hrec : get_provenance (one_event_state sv dv scn scv stn srole q t)
        1 "S" (some sv) "1" "logtext" false = RunResult.ret "" := by
      have hfil2 : (one_event_state sv dv scn scv stn srole q t).provenances.filter
          (fun dp => matches_query (one_event_state sv dv scn scv stn srole q t)
            dp "S" (some sv) "1") = [] := by
        simp [one_event_state, matches_query, List.filter]
      rw [get_provenance_succ, hfil2]
      rfl
    rw [get_provenance_succ, hfil]
    simp only [List.length_cons, List.length_nil]
    rw [if_neg (by decide)]
    simp only [List.foldl_cons, List.foldl_nil]
    have hsrc : src_store_name (one_event_state sv dv scn scv stn srole q t)
        ⟨0, "1", "2", q, t⟩ = "S" := by
      simp [src_store_name, elemOf, one_event_state]
    have hvar : (elemOf (one_event_state sv dv scn scv stn srole q t)
        ⟨0, "1", "2", q, t⟩).source_variable = some sv := by
      simp [elemOf, one_event_state]
    rw [hsrc, hvar, hrec]
    have hrend : render_provenance (one_event_state sv dv scn scv stn srole q t)
        ⟨0, "1", "2", q, t⟩ "logtext" =
        some (format_provenance_logtext "S" sv "1" scn scv "D" dv "2"
          stn srole) := by
      simp [render_provenance, one_event_state, elemOf, scriptOf,
        stewardOf, ownerOf, src_store_name, dst_store_name, pyStr]
    rw [hrend]
    simp [prov_step, String.empty_append, String.append_empty]
  · intro a b c d e f g h i j
    rfl

/-- Counterexample to C6 as stated: the concretely rendered lineage is
the space-joined sentence, and it is not the dot-joined sentence the
claim describes (with or without a trailing newline). -/
theorem logtext_dots_counterexample :
    get_provenance (one_event_state "sv" "dv" "scn" "scv" "stn" "sr"
      "q" "t") 2 "D" (some "dv") "2" "logtext" true =
      RunResult.ret
        "S sv 1 was converted by scn scv to D dv 2 by stn sr\n" ∧
    get_provenance (one_event_state "sv" "dv" "scn" "scv" "stn" "sr"
      "q" "t") 2 "D" (some "dv") "2" "logtext" true ≠
      RunResult.ret
        "S.sv.1 was converted by scn scv to D.dv.2 by stn sr" ∧
    get_provenance (one_event_state "sv" "dv" "scn" "scv" "stn" "sr"
      "q" "t") 2 "D" (some "dv") "2" "logtext" true ≠
      RunResult.ret
        "S.sv.1 was converted by scn scv to D.dv.2 by stn sr\n" := by
  decide

/-- A store holding the two chained events of the spec's lineage
example: `E1 : ("X", v, "1") → ("Y", v, "2")` recorded first and
`E2 : ("Y", v, "2") → ("Z", v, "3")` recorded second, each with its own
script, steward and owner rows. -/
def chain_state (v scn1 scv1 stn1 sr1 scn2 scv2 stn2 sr2 q1 t1 q2
    t2 : String) : PState :=
  { owners := [⟨some "o1", none, none, none⟩,
               ⟨some "o2", none, none, none⟩],
    stewards := [⟨some stn1, some sr1, none, none⟩,
                 ⟨some stn2, some sr2, none, none⟩],
    stores := [⟨"X"⟩, ⟨"Y"⟩, ⟨"Z"⟩],
    scripts := [⟨some scn1, some scv1, none⟩,
                ⟨some scn2, some scv2, none⟩],
    elements := [⟨"n1", none, 0, some v, 1, some v, none, none, some 0,
                  none, some 0, none, some 0⟩,
                 ⟨"n2", none, 1, some v, 2, some v, none, none, some 1,
                  none, some 1, none, some 1⟩],
    provenances := [⟨0, "1", "2", q1, t1⟩, ⟨1, "2", "3", q2, t2⟩] }

/-- C2: querying the chain's final destination `("Z", v, "3")` returns
the chunk rendered for `E2` immediately followed by the recursive
resolution of `E2`'s source coordinates — the chunk for `E1` — i.e. a
depth-first, most-recent-first ordering of the chain. -/
theorem get_provenance_chain_order (v scn1 scv1 stn1 sr1 scn2 scv2 stn2
    sr2 q1 t1 q2 t2 : String) :
    get_provenance (chain_state v scn1 scv1 stn1 sr1 scn2 scv2 stn2 sr2
      q1 t1 q2 t2) 3 "Z" (some v) "3" "logtext" true =
      RunResult.ret
        (format_provenance_logtext "Y" v "2" scn2 scv2 "Z" v "3" stn2
          sr2 ++
         format_provenance_logtext "X" v "1" scn1 scv1 "Y" v "2" stn1
          sr1) := by
  set s := chain_state v scn1 scv1 stn1 sr1 scn2 scv2 stn2 sr2 q1 t1 q2
    t2 with hs
  have hrecX : get_provenance s 1 "X" (some v) "1" "logtext" false =
      RunResult.ret "" := by
    have hfil : s.provenances.filter
        (fun dp => matches_query s dp "X" (some v) "1") = [] := by
      simp [hs, chain_state, matches_query, List.filter]
    rw [get_provenance_succ, hfil]
    rfl
  have hrecY : get_provenance s 2 "Y" (some v) "2" "logtext" false =
      RunResult.ret
        (format_provenance_logtext "X" v "1" scn1 scv1 "Y" v "2" stn1
          sr1) := by
    have hfil : s.provenances.filter
        (fun dp => matches_query s dp "Y" (some v) "2") =
        [⟨0, "1", "2", q1, t1⟩] := by
      simp [hs, chain_state, matches_query, List.filter]
    rw [get_provenance_succ, hfil]
    simp only [List.length_cons, List.length_nil]
    rw [if_neg (by decide)]
    simp only [List.foldl_cons, List.foldl_nil]
    have hsrc : src_store_name s ⟨0, "1", "2", q1, t1⟩ = "X" := by
      simp [hs, src_store_name, elemOf, chain_state]
    have hvar : (elemOf s ⟨0, "1", "2", q1, t1⟩).source_variable =
        some v := by
      simp [hs, elemOf, chain_state]
    rw [hsrc, hvar, hrecX]
    have hrend : render_provenance s ⟨0, "1", "2", q1, t1⟩ "logtext" =
        some (format_provenance_logtext "X" v "1" scn1 scv1 "Y" v "2"
          stn1 sr1) := by
      simp [hs, render_provenance, chain_state, elemOf, scriptOf,
        stewardOf, ownerOf, src_store_name, dst_store_name, pyStr]
    rw [hrend]
    simp [prov_step, String.empty_append, String.append_empty]
  have hfil : s.provenances.filter
      (fun dp => matches_query s dp "Z" (some v) "3") =
      [⟨1, "2", "3", q2, t2⟩] := by
    simp [hs, chain_state, matches_query, List.filter]
  rw [get_provenance_succ, hfil]
  simp only [List.length_cons, List.length_nil]
  rw [if_neg (by decide)]
  simp only [List.foldl_cons, List.foldl_nil]
  have hsrc : src_store_name s ⟨1, "2", "3", q2, t2⟩ = "Y" := by
    simp [hs, src_store_name, elemOf, chain_state]
  have hvar : (elemOf s ⟨1, "2", "3", q2, t2⟩).source_variable =
      some v := by
    simp [hs, elemOf, chain_state]
  rw [hsrc, hvar, hrecY]
  have hrend : render_provenance s ⟨1, "2", "3", q2, t2⟩ "logtext" =
      some (format_provenance_logtext "Y" v "2" scn2 scv2 "Z" v "3"
        stn2 sr2) := by
    simp [hs, render_provenance, chain_state, elemOf, scriptOf,
      stewardOf, ownerOf, src_store_name, dst_store_name, pyStr]
  rw [hrend]
  simp [prov_step, String.empty_append, String.append_empty]

/-- A destination-coordinate triple
`(datastore name, variable, reference)` as queried and recursed on by
`get_provenance`. -/
abbrev Coord := String × Option String × String

/-- The source coordinates of an event — the triple `get_provenance`
recurses on for that event. -/
def srcCoordOf (s : PState) (dp : DataProvenanceRow) : Coord :=
  (src_store_name s dp, (elemOf s dp).source_variable,
   dp.sourcereference)

/-- One backward step of the lineage walk: some stored event matches the
query triple `c` and has source coordinates `c'`. -/
def stepTo (s : PState) (c c' : Coord) : Prop :=
  ∃ dp ∈ s.provenances,
    matches_query s dp c.1 c.2.1 c.2.2 = true ∧ c' = srcCoordOf s dp

/-- A length-`n` chain of backward steps along `f`. -/
def IsPath (s : PState) (f : Nat → Coord) (n : Nat) : Prop :=
  ∀ i < n, stepTo s (f i) (f (i + 1))

theorem transGen_of_path (s : PState) (f : Nat → Coord) (n : Nat)
    (hf : IsPath s f n) :
    ∀ i j, i < j → j ≤ n → Relation.TransGen (stepTo s) (f i) (f j) := by
  intro i j
  induction j with
  | zero =>
    intro h _
    exact absurd h (Nat.not_lt_zero i)
  | succ m ih =>
    intro hij hjn
    by_cases him : i = m
    · subst him
      exact Relation.TransGen.single (hf i (by omega))
    · exact Relation.TransGen.tail (ih (by omega) (by omega))
        (hf m (by omega))

theorem no_long_path_of_acyclic (s : PState)
    (hacyc : ∀ c : Coord, ¬ Relation.TransGen (stepTo s) c c)
    (c : Coord) :
    ¬ ∃ f : Nat → Coord, f 0 = c ∧
        IsPath s f (s.provenances.length + 1) := by
  rintro ⟨f, _, hf⟩
  have hmaps : ∀ i ∈ Finset.range (s.provenances.length + 1),
      f (i + 1) ∈ (s.provenances.map (srcCoordOf s)).toFinset := by
    intro i hi
    have hi' : i < s.provenances.length + 1 := Finset.mem_range.mp hi
    obtain ⟨dp, hdp, _, hc'⟩ := hf i hi'
    rw [hc', List.mem_toFinset]
    exact List.mem_map_of_mem _ hdp
  have hcard : (s.provenances.map (srcCoordOf s)).toFinset.card <
      (Finset.range (s.provenances.length + 1)).card := by
    rw [Finset.card_range]
    have h1 : (s.provenances.map (srcCoordOf s)).toFinset.card ≤
        (s.provenances.map (srcCoordOf s)).length :=
      List.toFinset_card_le _
    rw [List.length_map] at h1
    omega
  obtain ⟨i, hi, j, hj, hne, heq⟩ :=
    Finset.exists_ne_map_eq_of_card_lt_of_maps_to hcard hmaps
  have hi' := Finset.mem_range.mp hi
  have hj' := Finset.mem_range.mp hj
  rcases Nat.lt_or_ge i j with hij | hij
  · have ht := transGen_of_path s f (s.provenances.length + 1) hf
      (i + 1) (j + 1) (by omega) (by omega)
    rw [heq] at ht
    exact hacyc _ ht
  · have hij' : j < i := by omega
    have ht := transGen_of_path s f (s.provenances.length + 1) hf
      (j + 1) (i + 1) (by omega) (by omega)
    rw [← heq] at ht
    exact hacyc _ ht

theorem prov_step_not_diverge (chunk? : Option String)
    (rec acc : RunResult) (hrec : rec ≠ RunResult.diverge)
    (hacc : acc ≠ RunResult.diverge) :
    prov_step chunk? rec acc ≠ RunResult.diverge := by
  cases acc with
  | diverge => exact absurd rfl hacc
  | raise => simp [prov_step]
  | ret t =>
    cases chunk? with
    | none => simp [prov_step]
    | some chunk =>
      cases rec with
      | diverge => exact absurd rfl hrec
      | raise => simp [prov_step]
      | ret r => simp [prov_step]

theorem get_provenance_not_diverge_of_no_path (s : PState) :
    ∀ (fuel : Nat) (c : Coord) (format : String) (top : Bool),
      (¬ ∃ f : Nat → Coord, f 0 = c ∧ IsPath s f fuel) →
      get_provenance s fuel c.1 c.2.1 c.2.2 format top ≠
        RunResult.diverge := by
  intro fuel
  induction fuel with
  | zero =>
    intro c fmt top h
    exact absurd ⟨fun _ => c, rfl,
      fun i hi => absurd hi (Nat.not_lt_zero i)⟩ h
  | succ n ih =>
    intro c fmt top h
    rw [get_provenance_succ]
    by_cases hz : (s.provenances.filter
        (fun dp => matches_query s dp c.1 c.2.1 c.2.2)).length = 0
    · rw [if_pos hz]
      intro hcon
      cases hcon
    · rw [if_neg hz]
      refine foldl_inv (fun acc => acc ≠ RunResult.diverge) _ _ _
        (fun hcon => by cases hcon) ?_
      intro acc dp hdp hacc
      have hdp' := List.mem_filter.mp hdp
      have hmq : matches_query s dp c.1 c.2.1 c.2.2 = true := by
        simpa using hdp'.2
      have hstep : stepTo s c (srcCoordOf s dp) :=
        ⟨dp, hdp'.1, hmq, rfl⟩
      have hnp : ¬ ∃ f : Nat → Coord,
          f 0 = srcCoordOf s dp ∧ IsPath s f n := by
        rintro ⟨f', hf0, hfp⟩
        apply h
        refine ⟨fun i => match i with | 0 => c | j + 1 => f' j, rfl, ?_⟩
        intro i hi
        cases i with
        | zero =>
          show stepTo s c (f' 0)
          rw [hf0]
          exact hstep
        | succ j =>
          exact hfp j (by omega)
      exact prov_step_not_diverge _ _ _
        (ih (srcCoordOf s dp) fmt false hnp) hacc

/-- A store whose single event writes back onto its own source
coordinates: `("X", v, "1") → ("X", v, "1")`. -/
def cyclic_state : PState :=
  { owners := [⟨some "o", none, none, none⟩],
    stewards := [⟨some "st", some "sr", none, none⟩],
    stores := [⟨"X"⟩],
    scripts := [⟨some "s", some "sv", none⟩],
    elements := [⟨"n", none, 0, some "v", 0, some "v", none, none,
      some 0, none, some 0, none, some 0⟩],
    provenances := [⟨0, "1", "1", "q", "t"⟩] }

theorem cyclic_state_diverges :
    ∀ (fuel : Nat) (top : Bool),
      get_provenance cyclic_state fuel "X" (some "v") "1" "logtext"
        top = RunResult.diverge := by
  intro fuel
  induction fuel with
  | zero =>
    intro top
    rfl
  | succ n ih =>
    intro top
    have hcalc : get_provenance cyclic_state (n + 1) "X" (some "v") "1"
        "logtext" top =
        prov_step
          (render_provenance cyclic_state ⟨0, "1", "1", "q", "t"⟩
            "logtext")
          (get_provenance cyclic_state n "X" (some "v") "1" "logtext"
            false) (RunResult.ret "") := rfl
    rw [hcalc, ih false]
    rfl

/-- C7: on every store whose backward coordinate graph is acyclic,
`get_provenance` terminates — some finite recursion budget (one more
than the number of events) completes the walk; and no cycle detection
exists: on the concrete store whose event's source coordinates equal
its own destination coordinates, every budget is exhausted, i.e. the
Python original recurses forever instead of reporting an error. -/
theorem get_provenance_termination :
    (∀ (s : PState),
        (∀ c : Coord, ¬ Relation.TransGen (stepTo s) c c) →
        ∀ (datastore : String) (varName : Option String)
          (reference format : String) (top : Bool),
          ∃ fuel, get_provenance s fuel datastore varName reference
            format top ≠ RunResult.diverge) ∧
    (∀ (fuel : Nat) (top : Bool),
        get_provenance cyclic_state fuel "X" (some "v") "1" "logtext"
          top = RunResult.diverge) := by
  constructor
  · intro s hacyc ds v r fmt top
    exact ⟨s.provenances.length + 1,
      get_provenance_not_diverge_of_no_path s
        (s.provenances.length + 1) (ds, v, r) fmt top
        (no_long_path_of_acyclic s hacyc (ds, v, r))⟩
  · exact cyclic_state_diverges

theorem empty_state_acyclic :
    ∀ c : Coord, ¬ Relation.TransGen (stepTo init_state) c c := by
  have hgen : ∀ a b : Coord,
      Relation.TransGen (stepTo init_state) a b → False := by
    intro a b h
    induction h with
    | single hstep =>
      obtain ⟨dp, hdp, _⟩ := hstep
      exact (List.not_mem_nil dp) hdp
    | tail _ hstep _ =>
      obtain ⟨dp, hdp, _⟩ := hstep
      exact (List.not_mem_nil dp) hdp
  exact fun c h => hgen c c h

/-- Witness for C7 on the concretely acyclic (empty) store. -/
theorem get_provenance_termination_witness :
    ∃ fuel, get_provenance init_state fuel "dwh" (some "v") "7"
      "logtext" true ≠ RunResult.diverge :=
  get_provenance_termination.1 init_state empty_state_acyclic "dwh"
    (some "v") "7" "logtext" true
